import Mathlib

/-!
Verification of the CBZ archive core of the dexter repository.

This file gives a shallow embedding of the relevant parts of the
`cbz` library crate (`src/cbz/src/lib.rs`, error enum from
`src/cbz/src/errors.rs`) and of the repair tool
`src/cbz-dexter-reindex/src/main.rs`, and proves the behavioural
claims about them.

Modelling conventions:
* Byte buffers (`&[u8]`, `Bytes`, `Cow<[u8]>`) are `List Nat`.
* The zip container (external `zip` crate) is a list of written
  entries in physical write order; `ZipWriter::start_file` +
  `write_all` append one entry and always succeed (I/O failures of
  the external collaborator are not modelled), and the
  finish/reopen round-trip through the container preserves the
  entry list.
* Rust methods taking `&mut self` and returning `Result<()>` are
  modelled as `State → State × Except Error Unit`, so that the
  state left behind on the error path is explicit.
* `char::is_numeric` is modelled by `Char.isDigit`; on the
  single-byte (ASCII) characters that archive entry names use, the
  two predicates coincide, as do Rust's byte-based `String::len`
  and the character count used here.
-/

deriving instance DecidableEq for Except

/-- Lexicographic comparison of character lists, the order in which
Rust's `Vec::<String>::sort` arranges file names (UTF-8 byte order
coincides with code-point order). -/
def charsLe : List Char → List Char → Bool
  | [], _ => true
  | _ :: _, [] => false
  | a :: as, b :: bs =>
    if a < b then true
    else if b < a then false
    else charsLe as bs

/-- Lexicographic order on strings: the `Ord` instance of Rust's
`String` used by `file_names.sort()`. -/
def string_le (a b : String) : Bool :=
  charsLe a.data b.data

/-- Model of `file_names.sort()` from `CbzRead::for_each` and
`CbzRead::try_for_each`: sort the collected names ascending. -/
def sortFileNames (l : List String) : List String :=
  List.insertionSort (fun a b => string_le a b = true) l

/-- Splits a character list at every occurrence of `sep`
(used to model path component and extension splitting). -/
def splitOnChar (sep : Char) : List Char → List (List Char)
  | [] => [[]]
  | c :: cs =>
    if c = sep then [] :: splitOnChar sep cs
    else
      match splitOnChar sep cs with
      | [] => [[c]]
      | h :: t => (c :: h) :: t

namespace Cbz

/-- Constant `MAX_FILE_NUMBER` from `src/cbz/src/lib.rs`:
the artificial 65535-entry cap (`u16::MAX as usize`). -/
def MAX_FILE_NUMBER : Nat := 65535

/-- Constant `COUNTER_SIZE` from `src/cbz/src/lib.rs`: the width of
the zero-padded counter in generated entry names. -/
def COUNTER_SIZE : Nat := 5

/-- The error enum from `src/cbz/src/errors.rs` (payloads carried by
external types are dropped). -/
inductive Error where
  | ioError
  | Zip
  | CbzFileSizeConversion
  | CbzFileNameEmpty
  | CbzFileInvalidIndex (index : String)
  | CbzNotFound (index : Nat)
  | CbzTooLarge (max : Nat)
  | CbzInsertionNoExtension
  | CbzInsertionNoBytes
  | Image
  deriving DecidableEq, Repr

/-- Placeholder for the external `zip::write::FileOptions` type; only
its `Default` value is ever observed by the modelled code. -/
inductive FileOptions where
  | default
  deriving DecidableEq, Repr

/-- One entry written into the zip container: name, payload bytes and
the options passed to `start_file`. -/
structure ZipEntry where
  name : String
  bytes : List Nat
  options : FileOptions
  deriving DecidableEq, Repr

/-- Model of `CbzWriter`: the in-progress zip container (entries in
physical write order) plus the separately tracked `size` counter. -/
structure CbzWriter where
  entries : List ZipEntry
  size : Nat
  deriving DecidableEq, Repr

/-- Model of `CbzWriter::default()` (via `from_writer`/`new`):
an empty container with `size = 0`. -/
def CbzWriter.default : CbzWriter := ⟨[], 0⟩

/-- Model of Rust's string formatting `{:0>width$}`: left-pad with
zeros up to `width` (no truncation when already longer). -/
def padStart (s : String) (width : Nat) : String :=
  String.mk (List.replicate (width - s.length) '0') ++ s

/-- Model of `CbzWriter::insert_from_bytes_slice_with_options`, the
raw operation every insert path funnels through: reject with
`CbzTooLarge` while leaving the writer untouched if `size` has
reached `MAX_FILE_NUMBER`, otherwise start the file, write the
bytes, and increment `size`. -/
def CbzWriter.insert_from_bytes_slice_with_options (self : CbzWriter)
    (filename : String) (bytes : List Nat) (file_options : FileOptions) :
    CbzWriter × Except Error Unit :=
  if self.size ≥ MAX_FILE_NUMBER then
    (self, Except.error (Error.CbzTooLarge MAX_FILE_NUMBER))
  else
    ({ entries := self.entries ++ [⟨filename, bytes, file_options⟩],
       size := self.size + 1 },
     Except.ok ())

/-- The `Auto` naming-strategy tag. -/
inductive Auto where
  | mk
  deriving DecidableEq, Repr

/-- The `Indexed(usize)` naming-strategy tag. -/
structure Indexed where
  val : Nat
  deriving DecidableEq, Repr

/-- The `CustomStr(&str)` naming-strategy tag. -/
structure CustomStr where
  val : String
  deriving DecidableEq, Repr

/-- Model of `CbzWriterInsertion<T>`: a validated insertion carrying
extension, file options, bytes and the strategy tag. -/
structure CbzWriterInsertion (T : Type) where
  extension : String
  file_options : FileOptions
  bytes : List Nat
  type_ : T
  deriving DecidableEq, Repr

/-- Model of `CbzWrite::insert` for `CbzWriter`: the entry name is
`format!("{:0>COUNTER_SIZE$}.{}", self.size() + 1, extension)`. -/
def CbzWriter.insert (self : CbzWriter) (insertion : CbzWriterInsertion Auto) :
    CbzWriter × Except Error Unit :=
  self.insert_from_bytes_slice_with_options
    (padStart (toString (self.size + 1)) COUNTER_SIZE ++ "." ++ insertion.extension)
    insertion.bytes insertion.file_options

/-- Model of `CbzWrite::insert_at` for `CbzWriter`: the entry name is
`format!("{:0>COUNTER_SIZE$}.{}", *insertion.type_, extension)`. -/
def CbzWriter.insert_at (self : CbzWriter) (insertion : CbzWriterInsertion Indexed) :
    CbzWriter × Except Error Unit :=
  self.insert_from_bytes_slice_with_options
    (padStart (toString insertion.type_.val) COUNTER_SIZE ++ "." ++ insertion.extension)
    insertion.bytes insertion.file_options

/-- Model of `CbzWrite::insert_custom_str` for `CbzWriter`: the entry
name is `format!("{:0>COUNTER_SIZE$}.{}", &*insertion.type_, extension)` —
note the custom string goes through the same zero-padding format
specifier as the numeric counters. -/
def CbzWriter.insert_custom_str (self : CbzWriter)
    (insertion : CbzWriterInsertion CustomStr) : CbzWriter × Except Error Unit :=
  self.insert_from_bytes_slice_with_options
    (padStart insertion.type_.val COUNTER_SIZE ++ "." ++ insertion.extension)
    insertion.bytes insertion.file_options

/-- Model of `CbzWriter::finish` followed by reopening the produced
buffer with `CbzReader`: the zip container round-trip (external
collaborator) hands back the written entries. -/
def CbzWriter.finish (self : CbzWriter) : List ZipEntry :=
  self.entries

/-- Model of `CbzRead::file_names` for `CbzReader`: the entry names in
the container's physical order. -/
def file_names (archive : List ZipEntry) : List String :=
  archive.map ZipEntry.name

/-- Model of `CbzRead::read_by_name` for `CbzReader`: look the entry up
by name; an absent name surfaces as `Error::Zip(FileNotFound)`. -/
def read_by_name (archive : List ZipEntry) (name : String) : Except Error ZipEntry :=
  match archive.find? (fun e => e.name == name) with
  | some e => Except.ok e
  | none => Except.error Error.Zip

/-- Model of `CbzRead::for_each`: collect the file names, sort them,
and invoke the callback on `read_by_name` of each name in sorted
order (the callback's outputs are collected in invocation order). -/
def for_each {α : Type} (archive : List ZipEntry) (f : Except Error ZipEntry → α) :
    List α :=
  (sortFileNames (file_names archive)).map (fun n => f (read_by_name archive n))

/-- Model of `CbzRead::try_for_each`: like `for_each` but the callback
is fallible and its first error short-circuits the iteration. -/
def try_for_each {E : Type} (archive : List ZipEntry)
    (f : Except Error ZipEntry → Except E Unit) : Except E Unit :=
  (sortFileNames (file_names archive)).forM (fun n => f (read_by_name archive n))

/-- The private `InsertionTypeDescriber` enum of the builder. -/
inductive InsertionTypeDescriber where
  | Filename (s : String)
  | Extension (s : String)
  deriving DecidableEq, Repr

/-- Model of `CbzWriterInsertionBuilder`. -/
structure CbzWriterInsertionBuilder where
  type_describer : InsertionTypeDescriber
  file_options : Option FileOptions
  bytes : Option (List Nat)
  deriving DecidableEq, Repr

/-- Model of `CbzWriterInsertionBuilder::from_filename`. -/
def CbzWriterInsertionBuilder.from_filename (filename : String) :
    CbzWriterInsertionBuilder :=
  ⟨InsertionTypeDescriber.Filename filename, none, none⟩

/-- Model of `CbzWriterInsertionBuilder::from_extension`. -/
def CbzWriterInsertionBuilder.from_extension (extension : String) :
    CbzWriterInsertionBuilder :=
  ⟨InsertionTypeDescriber.Extension extension, none, none⟩

/-- Model of `CbzWriterInsertionBuilder::set_file_options`. -/
def CbzWriterInsertionBuilder.set_file_options (self : CbzWriterInsertionBuilder)
    (file_options : FileOptions) : CbzWriterInsertionBuilder :=
  { self with file_options := some file_options }

/-- Model of `CbzWriterInsertionBuilder::set_bytes` (as well as
`set_bytes_ref` / a successful `set_bytes_from_reader`, which differ
only in ownership): last call wins. -/
def CbzWriterInsertionBuilder.set_bytes (self : CbzWriterInsertionBuilder)
    (bytes : List Nat) : CbzWriterInsertionBuilder :=
  { self with bytes := some bytes }

/-- Model of `camino::Utf8Path::file_name` (mirroring
`std::path::Path::file_name`): the last non-empty, non-`.` component;
`None` when that component is `..` or when there is none. -/
def pathFileName (p : String) : Option String :=
  match ((splitOnChar '/' p.data).filter
      (fun c => !c.isEmpty && c != ['.'])).getLast? with
  | none => none
  | some comp =>
    if comp = ['.', '.'] then none else some (String.mk comp)

/-- Model of `camino::Utf8Path::extension` (mirroring
`std::path::Path::extension`): split the file name at its last dot;
no extension when there is no dot, or when the only dot is the
leading character of the file name (dotfile rule). The portion after
a trailing dot is the empty extension `some ""`. -/
def pathExtension (p : String) : Option String :=
  match pathFileName p with
  | none => none
  | some file =>
    match splitOnChar '.' file.data with
    | [] => none
    | [_] => none
    | [pre, ext] => if pre.isEmpty then none else some (String.mk ext)
    | parts => some ((parts.getLast?).getD [] |> String.mk)

/-- Model of `CbzWriterInsertionBuilder::inner_build`: fail with
`CbzInsertionNoBytes` when bytes were never set; resolve the
extension (explicit, or from the filename's path extension filtered
to be non-empty), failing with `CbzInsertionNoExtension`; otherwise
assemble the insertion with defaulted file options. -/
def CbzWriterInsertionBuilder.inner_build {T : Type}
    (self : CbzWriterInsertionBuilder) (type_ : T) :
    Except Error (CbzWriterInsertion T) :=
  match self.bytes with
  | none => Except.error Error.CbzInsertionNoBytes
  | some bytes =>
    match self.type_describer with
    | InsertionTypeDescriber.Extension extension =>
      if extension.isEmpty then Except.error Error.CbzInsertionNoExtension
      else Except.ok ⟨extension, self.file_options.getD FileOptions.default, bytes, type_⟩
    | InsertionTypeDescriber.Filename filename =>
      match (pathExtension filename).bind
          (fun ext => if ext.isEmpty then none else some ext) with
      | none => Except.error Error.CbzInsertionNoExtension
      | some extension =>
        Except.ok ⟨extension, self.file_options.getD FileOptions.default, bytes, type_⟩

/-- Model of `CbzWriterInsertionBuilder::build`. -/
def CbzWriterInsertionBuilder.build (self : CbzWriterInsertionBuilder) :
    Except Error (CbzWriterInsertion Auto) :=
  self.inner_build Auto.mk

/-- Model of `CbzWriterInsertionBuilder::build_indexed`. -/
def CbzWriterInsertionBuilder.build_indexed (self : CbzWriterInsertionBuilder)
    (index : Nat) : Except Error (CbzWriterInsertion Indexed) :=
  self.inner_build (Indexed.mk index)

/-- Model of `CbzWriterInsertionBuilder::build_custom_str`. -/
def CbzWriterInsertionBuilder.build_custom_str (self : CbzWriterInsertionBuilder)
    (s : String) : Except Error (CbzWriterInsertion CustomStr) :=
  self.inner_build (CustomStr.mk s)

end Cbz

namespace CbzDexterReindex

/-- Digit-run parser underlying `str::parse::<u16>`: a non-empty
all-digit character list whose decimal value fits in a `u16`. -/
def parseDigits (l : List Char) : Option Nat :=
  if l.isEmpty then none
  else if l.all Char.isDigit then
    let v := l.foldl (fun acc c => acc * 10 + (c.toNat - '0'.toNat)) 0
    if v ≤ 65535 then some v else none
  else none

/-- Model of `str::parse::<u16>`: an optional leading `'+'` sign
followed by a non-empty run of ASCII digits whose value fits in
16 bits; everything else is a parse error (`none`). -/
def parseU16 (s : String) : Option Nat :=
  match s.data with
  | [] => none
  | '+' :: rest => parseDigits rest
  | l => parseDigits l

/-- The character-consuming loop of `reformat_index`: collect
characters until the first `'-'` (exclusive); the second component is
what remains after the separator. -/
def takeUntilDash : List Char → List Char × List Char
  | [] => ([], [])
  | c :: cs =>
    if c = '-' then ([], cs)
    else
      let r := takeUntilDash cs
      (c :: r.1, r.2)

/-- The numeric candidate `index` isolated by `reformat_index`: the
first character of the name iff it is numeric, followed by every
further character up to (excluding) the first `'-'`. -/
def index_candidate (name : String) : String :=
  match name.data with
  | [] => ""
  | first :: rest =>
    (if first.isDigit then String.singleton first else "") ++
      String.mk (takeUntilDash rest).1

/-- The suffix `name_chars.as_str()` left over by `reformat_index`
after the loop: everything after the first `'-'` (empty when the
name has no `'-'`). -/
def rest_suffix (name : String) : String :=
  match name.data with
  | [] => ""
  | _ :: rest => String.mk (takeUntilDash rest).2

/-- Model of `reformat_index` from `src/cbz-dexter-reindex/src/main.rs`
(the function receives the entry's file name): bail with
"filename is empty" on an empty name; isolate the numeric candidate
(dropping the first character only when it is not numeric); bail
with "invalid index ..." when the candidate is longer than
`expected_length` or does not parse as a `u16`; otherwise return the
candidate zero-padded to `expected_length`, a `'-'`, and the
remaining suffix. -/
def reformat_index (name : String) (expected_length : Nat) : Except String String :=
  match name.data with
  | [] => Except.error "filename is empty"
  | first :: rest =>
    let index :=
      (if first.isDigit then String.singleton first else "") ++
        String.mk (takeUntilDash rest).1
    if index.length > expected_length ∨ parseU16 index = none then
      Except.error ("invalid index " ++ index)
    else
      Except.ok (Cbz.padStart index expected_length ++ "-" ++
        String.mk (takeUntilDash rest).2)

/-- The `try_for_each` loop body of the tool's `main`, with the
`&mut` zip writer captured by the closure threaded as fold state:
read each entry of the source archive in sorted-name order, compute
its repaired name with `reformat_index(_, 3)`, and append
name-rewritten entries to the fresh archive; the first failure
aborts the whole loop. -/
def reindex_entries (archive : List Cbz.ZipEntry) :
    Except String (List Cbz.ZipEntry) :=
  (sortFileNames (Cbz.file_names archive)).foldlM
    (fun acc n =>
      match Cbz.read_by_name archive n with
      | Except.error _ => Except.error "cbz read error"
      | Except.ok file =>
        match reformat_index file.name 3 with
        | Except.error e => Except.error e
        | Except.ok new_filename =>
          Except.ok (acc ++ [Cbz.ZipEntry.mk new_filename file.bytes
            Cbz.FileOptions.default]))
    []

/-- Joins path components back with `'/'`. -/
def joinChar (sep : Char) : List (List Char) → List Char
  | [] => []
  | [x] => x
  | x :: xs => x ++ sep :: joinChar sep xs

/-- The directory containing a path: everything before its last
`'/'` separator. -/
def parent_dir (p : String) : String :=
  String.mk (joinChar '/' ((splitOnChar '/' p.data).dropLast))

/-- Model of `Utf8PathBuf::join` for a relative second argument. -/
def path_join (a b : String) : String :=
  if a.isEmpty then b else if b.isEmpty then a else a ++ "/" ++ b

/-- Model of the tool's `main` (after argument parsing): obtain the
archive's file name (bailing when absent), rebuild the archive with
repaired entry names via the `try_for_each` loop, and on success
write the result to `current_dir.join(outdir).join(archive_filename)`
— the returned pair is that output path and the entries written
there. No comparison between `outdir` and the archive's own
directory is performed anywhere. -/
def main_pipeline (current_dir archive_path outdir : String)
    (archive : List Cbz.ZipEntry) :
    Except String (String × List Cbz.ZipEntry) :=
  match Cbz.pathFileName archive_path with
  | none => Except.error "archive name couldn't be read"
  | some archive_filename =>
    match reindex_entries archive with
    | Except.error e => Except.error e
    | Except.ok fixed =>
      Except.ok (path_join (path_join current_dir outdir) archive_filename, fixed)

end CbzDexterReindex


/-! Helper lemmas about the string order and sorting. -/

theorem charsLe_iff_not_lex : ∀ as bs : List Char,
    charsLe as bs = true ↔ ¬ List.Lex (· < ·) bs as
  | [], bs => by
    simp only [charsLe, true_iff]
    intro h; cases h
  | a :: as, [] => by
    simp only [charsLe, Bool.false_eq_true, false_iff, not_not]
    exact List.Lex.nil
  | a :: as, b :: bs => by
    simp only [charsLe]
    rcases lt_trichotomy a b with h | h | h
    · simp only [if_pos h, true_iff]
      intro hlex
      cases hlex with
      | cons h2 => exact absurd h (lt_irrefl _)
      | rel h2 => exact absurd (h.trans h2) (lt_irrefl _)
    · subst h
      simp only [if_neg (lt_irrefl a), charsLe_iff_not_lex as bs]
      constructor
      · intro hn hlex
        cases hlex with
        | cons h2 => exact hn h2
        | rel h2 => exact absurd h2 (lt_irrefl _)
      · intro hn h2
        exact hn (List.Lex.cons h2)
    · simp only [if_neg (lt_asymm h), if_pos h, Bool.false_eq_true, false_iff, not_not]
      exact List.Lex.rel h

theorem string_le_iff_le (a b : String) : string_le a b = true ↔ a ≤ b := by
  rw [string_le, charsLe_iff_not_lex]
  constructor
  · intro h
    rw [← not_lt]
    intro hba
    exact h (String.lt_iff_toList_lt.mp hba)
  · intro h hlex
    exact absurd (String.lt_iff_toList_lt.mpr hlex) (not_lt.mpr h)

theorem sortFileNames_sorted (l : List String) :
    List.Sorted (fun a b => a ≤ b) (sortFileNames l) := by
  haveI : IsTotal String (fun a b => string_le a b = true) :=
    ⟨fun a b => by
      rcases le_total a b with h | h
      · exact Or.inl ((string_le_iff_le a b).mpr h)
      · exact Or.inr ((string_le_iff_le b a).mpr h)⟩
  haveI : IsTrans String (fun a b => string_le a b = true) :=
    ⟨fun a b c hab hbc =>
      (string_le_iff_le a c).mpr
        (le_trans ((string_le_iff_le a b).mp hab) ((string_le_iff_le b c).mp hbc))⟩
  exact (List.sorted_insertionSort _ l).imp (fun h => (string_le_iff_le _ _).mp h)

theorem sortFileNames_perm (l : List String) : (sortFileNames l).Perm l :=
  List.perm_insertionSort _ l

/-! Helper lemmas about padding and the repair parser. -/

theorem padStart_eq_self_of_le (s : String) (width : Nat) (h : width ≤ s.length) :
    Cbz.padStart s width = s := by
  apply String.ext
  rw [Cbz.padStart, String.data_append, Nat.sub_eq_zero_of_le h]
  rfl

namespace CbzDexterReindex

theorem reformat_index_cons (first : Char) (rest : List Char) (w : Nat) :
    reformat_index (String.mk (first :: rest)) w =
      (if (index_candidate (String.mk (first :: rest))).length > w ∨
          parseU16 (index_candidate (String.mk (first :: rest))) = none then
        Except.error ("invalid index " ++ index_candidate (String.mk (first :: rest)))
      else
        Except.ok (Cbz.padStart (index_candidate (String.mk (first :: rest))) w ++ "-" ++
          rest_suffix (String.mk (first :: rest)))) :=
  rfl

theorem takeUntilDash_fst (l : List Char) :
    (takeUntilDash l).1 = l.takeWhile (fun c => c != '-') := by
  induction l with
  | nil => rfl
  | cons c cs ih =>
    by_cases h : c = '-'
    · subst h
      simp [takeUntilDash, List.takeWhile]
    · have hb : (c != '-') = true := by simp [h]
      simp [takeUntilDash, List.takeWhile, h, hb, ih]

theorem parseDigits_eq_none_of_bad_char (l : List Char) (c : Char)
    (hc : c ∈ l) (hd : c.isDigit = false) : parseDigits l = none := by
  have hall : l.all Char.isDigit = false := by
    rw [List.all_eq_false]
    exact ⟨c, hc, by simp [hd]⟩
  rw [parseDigits]
  have hne : l.isEmpty = false := by
    cases l with
    | nil => cases hc
    | cons x xs => rfl
  simp [hne, hall]

theorem parseU16_eq_none_of_bad_char (s : String) (c : Char)
    (hc : c ∈ s.data) (hd : c.isDigit = false) (hp : c ≠ '+') :
    parseU16 s = none := by
  rw [parseU16]
  split
  · rfl
  · next rest heq =>
    apply parseDigits_eq_none_of_bad_char _ c _ hd
    rw [heq] at hc
    cases hc with
    | head => exact absurd rfl hp
    | tail _ h => exact h
  · next h1 h2 =>
    exact parseDigits_eq_none_of_bad_char _ c hc hd

end CbzDexterReindex

/-! Claim C1. -/

/-- Claim C1: the raw insertion `insert_from_bytes_slice_with_options`
rejects with `CbzTooLarge` and leaves the writer completely unchanged
(no zip entry written) whenever `size` has reached `MAX_FILE_NUMBER`;
below the cap it appends exactly one entry and increments `size` by
one; consequently a writer within the cap stays within the cap, and
any successful call increments `size` by exactly one. -/
theorem insert_raw_capacity_guard (w : Cbz.CbzWriter) (filename : String)
    (bytes : List Nat) (fo : Cbz.FileOptions) :
    (Cbz.MAX_FILE_NUMBER ≤ w.size →
      w.insert_from_bytes_slice_with_options filename bytes fo
        = (w, Except.error (Cbz.Error.CbzTooLarge Cbz.MAX_FILE_NUMBER))) ∧
    (w.size < Cbz.MAX_FILE_NUMBER →
      w.insert_from_bytes_slice_with_options filename bytes fo
        = ({ entries := w.entries ++ [⟨filename, bytes, fo⟩], size := w.size + 1 },
           Except.ok ())) ∧
    (w.size ≤ Cbz.MAX_FILE_NUMBER →
      (w.insert_from_bytes_slice_with_options filename bytes fo).1.size
        ≤ Cbz.MAX_FILE_NUMBER) ∧
    ((w.insert_from_bytes_slice_with_options filename bytes fo).2 = Except.ok () →
      (w.insert_from_bytes_slice_with_options filename bytes fo).1.size = w.size + 1) := by
  unfold Cbz.CbzWriter.insert_from_bytes_slice_with_options
  by_cases h : Cbz.MAX_FILE_NUMBER ≤ w.size
  · rw [if_pos h]
    refine ⟨fun _ => rfl, fun h2 => absurd h (not_le.mpr h2), fun h2 => h2, fun h2 => ?_⟩
    cases h2
  · rw [if_neg h]
    refine ⟨fun h2 => absurd h2 h, fun _ => rfl, fun _ => ?_, fun _ => rfl⟩
    exact Nat.succ_le_of_lt (not_le.mp h)

/-- Witness for C1 at concrete inputs: a full writer (size 65535)
rejects and is left unchanged; an empty writer accepts and ends with
size 1. -/
theorem insert_raw_capacity_guard_witness :
    ((⟨[], 65535⟩ : Cbz.CbzWriter).insert_from_bytes_slice_with_options "f" [0]
        Cbz.FileOptions.default
      = (⟨[], 65535⟩, Except.error (Cbz.Error.CbzTooLarge Cbz.MAX_FILE_NUMBER))) ∧
    (Cbz.CbzWriter.default.insert_from_bytes_slice_with_options "00001.png" [1]
        Cbz.FileOptions.default
      = (⟨[⟨"00001.png", [1], Cbz.FileOptions.default⟩], 1⟩, Except.ok ())) :=
  ⟨(insert_raw_capacity_guard ⟨[], 65535⟩ "f" [0] Cbz.FileOptions.default).1 (by decide),
   (insert_raw_capacity_guard Cbz.CbzWriter.default "00001.png" [1]
      Cbz.FileOptions.default).2.1 (by decide)⟩

/-! Claim C2. -/

/-- Claim C2: an Auto insertion into a writer of size `n` (below the
cap) is written under the name obtained by zero-padding the decimal
rendering of `n + 1` to width `COUNTER_SIZE = 5`, followed by a dot
and the extension (1-based auto-numbering); and inserting three Auto
insertions with extensions png, jpg, png into a fresh writer and
reading the finished archive back yields the sorted file names
00001.png, 00002.jpg, 00003.png. -/
theorem insert_auto_one_based_names (w : Cbz.CbzWriter)
    (ins : Cbz.CbzWriterInsertion Cbz.Auto) (h : w.size < Cbz.MAX_FILE_NUMBER) :
    w.insert ins
      = ({ entries := w.entries ++
            [⟨Cbz.padStart (toString (w.size + 1)) Cbz.COUNTER_SIZE ++ "." ++
                ins.extension, ins.bytes, ins.file_options⟩],
           size := w.size + 1 },
         Except.ok ()) ∧
    (((Cbz.CbzWriter.default.insert
          ⟨"png", Cbz.FileOptions.default, [1], Cbz.Auto.mk⟩).1.insert
          ⟨"jpg", Cbz.FileOptions.default, [2], Cbz.Auto.mk⟩).1.insert
          ⟨"png", Cbz.FileOptions.default, [3], Cbz.Auto.mk⟩).1.finish
      = [⟨"00001.png", [1], Cbz.FileOptions.default⟩,
         ⟨"00002.jpg", [2], Cbz.FileOptions.default⟩,
         ⟨"00003.png", [3], Cbz.FileOptions.default⟩] ∧
    sortFileNames (Cbz.file_names
        (((Cbz.CbzWriter.default.insert
            ⟨"png", Cbz.FileOptions.default, [1], Cbz.Auto.mk⟩).1.insert
            ⟨"jpg", Cbz.FileOptions.default, [2], Cbz.Auto.mk⟩).1.insert
            ⟨"png", Cbz.FileOptions.default, [3], Cbz.Auto.mk⟩).1.finish)
      = ["00001.png", "00002.jpg", "00003.png"] := by
  refine ⟨?_, by decide, by decide⟩
  unfold Cbz.CbzWriter.insert Cbz.CbzWriter.insert_from_bytes_slice_with_options
  rw [if_neg (not_le.mpr h)]

/-- Witness for C2: the first Auto insertion into the fresh empty
writer ends up named 00001.png. -/
theorem insert_auto_one_based_names_witness :
    Cbz.CbzWriter.default.insert ⟨"png", Cbz.FileOptions.default, [1], Cbz.Auto.mk⟩
      = (⟨[⟨"00001.png", [1], Cbz.FileOptions.default⟩], 1⟩, Except.ok ()) :=
  (insert_auto_one_based_names Cbz.CbzWriter.default
      ⟨"png", Cbz.FileOptions.default, [1], Cbz.Auto.mk⟩ (by decide)).1

/-! Claim C3. -/

/-- Claim C3: `for_each` and `try_for_each` invoke their callback on
the entries taken in ascending lexicographic order of entry name —
they iterate over the sorted copy of `file_names`, which is a sorted
permutation of the container's physical name list; in particular an
archive assembled by inserting canonically named entries in reverse
numeric order (here via `insert_at` with indices 3, 2, 1) is
iterated in ascending name order. -/
theorem for_each_iterates_sorted {α E : Type} (archive : List Cbz.ZipEntry)
    (f : Except Cbz.Error Cbz.ZipEntry → α)
    (g : Except Cbz.Error Cbz.ZipEntry → Except E Unit) :
    Cbz.for_each archive f
      = (sortFileNames (Cbz.file_names archive)).map
          (fun n => f (Cbz.read_by_name archive n)) ∧
    Cbz.try_for_each archive g
      = (sortFileNames (Cbz.file_names archive)).forM
          (fun n => g (Cbz.read_by_name archive n)) ∧
    List.Sorted (fun a b : String => a ≤ b) (sortFileNames (Cbz.file_names archive)) ∧
    (sortFileNames (Cbz.file_names archive)).Perm (Cbz.file_names archive) ∧
    Cbz.file_names
        (((Cbz.CbzWriter.default.insert_at
            ⟨"png", Cbz.FileOptions.default, [3], ⟨3⟩⟩).1.insert_at
            ⟨"png", Cbz.FileOptions.default, [2], ⟨2⟩⟩).1.insert_at
            ⟨"png", Cbz.FileOptions.default, [1], ⟨1⟩⟩).1.finish
      = ["00003.png", "00002.png", "00001.png"] ∧
    Cbz.for_each
        (((Cbz.CbzWriter.default.insert_at
            ⟨"png", Cbz.FileOptions.default, [3], ⟨3⟩⟩).1.insert_at
            ⟨"png", Cbz.FileOptions.default, [2], ⟨2⟩⟩).1.insert_at
            ⟨"png", Cbz.FileOptions.default, [1], ⟨1⟩⟩).1.finish
        (fun r => match r with | Except.ok e => e.name | Except.error _ => "")
      = ["00001.png", "00002.png", "00003.png"] :=
  ⟨rfl, rfl, sortFileNames_sorted _, sortFileNames_perm _, by decide, by decide⟩

/-! Claim C4. -/

/-- Claim C4: each of `build`, `build_indexed` and `build_custom_str`
fails with `CbzInsertionNoBytes` when bytes were never set; with
bytes set, all three fail with `CbzInsertionNoExtension` when the
extension source is an empty explicit extension, or a filename whose
path extension is absent or empty; and all three succeed with the
resolved extension when bytes are set and a non-empty extension
resolves. -/
theorem builder_build_validation (d : Cbz.InsertionTypeDescriber)
    (fo : Option Cbz.FileOptions) (obytes : Option (List Nat)) (i : Nat) (s : String) :
    (obytes = none →
      (⟨d, fo, obytes⟩ : Cbz.CbzWriterInsertionBuilder).build
          = Except.error Cbz.Error.CbzInsertionNoBytes ∧
      (⟨d, fo, obytes⟩ : Cbz.CbzWriterInsertionBuilder).build_indexed i
          = Except.error Cbz.Error.CbzInsertionNoBytes ∧
      (⟨d, fo, obytes⟩ : Cbz.CbzWriterInsertionBuilder).build_custom_str s
          = Except.error Cbz.Error.CbzInsertionNoBytes) ∧
    (∀ bs, obytes = some bs → d = Cbz.InsertionTypeDescriber.Extension "" →
      (⟨d, fo, obytes⟩ : Cbz.CbzWriterInsertionBuilder).build
          = Except.error Cbz.Error.CbzInsertionNoExtension ∧
      (⟨d, fo, obytes⟩ : Cbz.CbzWriterInsertionBuilder).build_indexed i
          = Except.error Cbz.Error.CbzInsertionNoExtension ∧
      (⟨d, fo, obytes⟩ : Cbz.CbzWriterInsertionBuilder).build_custom_str s
          = Except.error Cbz.Error.CbzInsertionNoExtension) ∧
    (∀ bs f, obytes = some bs → d = Cbz.InsertionTypeDescriber.Filename f →
      (Cbz.pathExtension f).bind
          (fun ext => if ext.isEmpty then none else some ext) = none →
      (⟨d, fo, obytes⟩ : Cbz.CbzWriterInsertionBuilder).build
          = Except.error Cbz.Error.CbzInsertionNoExtension ∧
      (⟨d, fo, obytes⟩ : Cbz.CbzWriterInsertionBuilder).build_indexed i
          = Except.error Cbz.Error.CbzInsertionNoExtension ∧
      (⟨d, fo, obytes⟩ : Cbz.CbzWriterInsertionBuilder).build_custom_str s
          = Except.error Cbz.Error.CbzInsertionNoExtension) ∧
    (∀ bs e, obytes = some bs → d = Cbz.InsertionTypeDescriber.Extension e →
      e.isEmpty = false →
      (⟨d, fo, obytes⟩ : Cbz.CbzWriterInsertionBuilder).build
          = Except.ok ⟨e, fo.getD Cbz.FileOptions.default, bs, Cbz.Auto.mk⟩ ∧
      (⟨d, fo, obytes⟩ : Cbz.CbzWriterInsertionBuilder).build_indexed i
          = Except.ok ⟨e, fo.getD Cbz.FileOptions.default, bs, Cbz.Indexed.mk i⟩ ∧
      (⟨d, fo, obytes⟩ : Cbz.CbzWriterInsertionBuilder).build_custom_str s
          = Except.ok ⟨e, fo.getD Cbz.FileOptions.default, bs, Cbz.CustomStr.mk s⟩) ∧
    (∀ bs f e, obytes = some bs → d = Cbz.InsertionTypeDescriber.Filename f →
      (Cbz.pathExtension f).bind
          (fun ext => if ext.isEmpty then none else some ext) = some e →
      (⟨d, fo, obytes⟩ : Cbz.CbzWriterInsertionBuilder).build
          = Except.ok ⟨e, fo.getD Cbz.FileOptions.default, bs, Cbz.Auto.mk⟩ ∧
      (⟨d, fo, obytes⟩ : Cbz.CbzWriterInsertionBuilder).build_indexed i
          = Except.ok ⟨e, fo.getD Cbz.FileOptions.default, bs, Cbz.Indexed.mk i⟩ ∧
      (⟨d, fo, obytes⟩ : Cbz.CbzWriterInsertionBuilder).build_custom_str s
          = Except.ok ⟨e, fo.getD Cbz.FileOptions.default, bs, Cbz.CustomStr.mk s⟩) := by
  refine ⟨?_, ?_, ?_, ?_, ?_⟩
  · rintro rfl
    exact ⟨rfl, rfl, rfl⟩
  · rintro bs rfl rfl
    exact ⟨rfl, rfl, rfl⟩
  · rintro bs f rfl rfl hres
    refine ⟨?_, ?_, ?_⟩ <;>
      simp [Cbz.CbzWriterInsertionBuilder.build,
        Cbz.CbzWriterInsertionBuilder.build_indexed,
        Cbz.CbzWriterInsertionBuilder.build_custom_str,
        Cbz.CbzWriterInsertionBuilder.inner_build, hres]
  · rintro bs e rfl rfl he
    refine ⟨?_, ?_, ?_⟩ <;>
      simp [Cbz.CbzWriterInsertionBuilder.build,
        Cbz.CbzWriterInsertionBuilder.build_indexed,
        Cbz.CbzWriterInsertionBuilder.build_custom_str,
        Cbz.CbzWriterInsertionBuilder.inner_build, he]
  · rintro bs f e rfl rfl hres
    refine ⟨?_, ?_, ?_⟩ <;>
      simp [Cbz.CbzWriterInsertionBuilder.build,
        Cbz.CbzWriterInsertionBuilder.build_indexed,
        Cbz.CbzWriterInsertionBuilder.build_custom_str,
        Cbz.CbzWriterInsertionBuilder.inner_build, hres]

/-- Witness for C4 at concrete inputs, one per validation branch. -/
theorem builder_build_validation_witness :
    ((⟨Cbz.InsertionTypeDescriber.Extension "jpg", none, none⟩ :
        Cbz.CbzWriterInsertionBuilder).build
      = Except.error Cbz.Error.CbzInsertionNoBytes) ∧
    ((⟨Cbz.InsertionTypeDescriber.Extension "", none, some [1]⟩ :
        Cbz.CbzWriterInsertionBuilder).build_indexed 4
      = Except.error Cbz.Error.CbzInsertionNoExtension) ∧
    ((⟨Cbz.InsertionTypeDescriber.Filename "cover", none, some [1]⟩ :
        Cbz.CbzWriterInsertionBuilder).build
      = Except.error Cbz.Error.CbzInsertionNoExtension) ∧
    ((⟨Cbz.InsertionTypeDescriber.Extension "jpg", none, some [1]⟩ :
        Cbz.CbzWriterInsertionBuilder).build
      = Except.ok ⟨"jpg", Cbz.FileOptions.default, [1], Cbz.Auto.mk⟩) ∧
    ((⟨Cbz.InsertionTypeDescriber.Filename "cover.png", none, some [2]⟩ :
        Cbz.CbzWriterInsertionBuilder).build_custom_str "00007-1"
      = Except.ok ⟨"png", Cbz.FileOptions.default, [2], Cbz.CustomStr.mk "00007-1"⟩) :=
  ⟨(builder_build_validation (Cbz.InsertionTypeDescriber.Extension "jpg")
      none none 0 "").1 rfl |>.1,
   (builder_build_validation (Cbz.InsertionTypeDescriber.Extension "")
      none (some [1]) 4 "").2.1 [1] rfl rfl |>.2.1,
   (builder_build_validation (Cbz.InsertionTypeDescriber.Filename "cover")
      none (some [1]) 0 "").2.2.1 [1] "cover" rfl rfl (by decide) |>.1,
   (builder_build_validation (Cbz.InsertionTypeDescriber.Extension "jpg")
      none (some [1]) 0 "").2.2.2.1 [1] "jpg" rfl rfl (by decide) |>.1,
   (builder_build_validation (Cbz.InsertionTypeDescriber.Filename "cover.png")
      none (some [2]) 0 "00007-1").2.2.2.2 [2] "cover.png" "png" rfl rfl
      (by decide) |>.2.2⟩

/-! Claim C5. -/

/-- Counterexample to claim C5 as stated: the custom string is routed
through the same zero-padding format specifier as the counters, so a
custom-string insertion with stem shorter than `COUNTER_SIZE` is not
written under the verbatim name `s ++ "." ++ ext`: with `s = "-1"`
and extension jpg the entry is named 000-1.jpg, not -1.jpg. -/
theorem insert_custom_str_verbatim_counterexample :
    (Cbz.CbzWriter.default.insert_custom_str
        ⟨"jpg", Cbz.FileOptions.default, [9], ⟨"-1"⟩⟩).1.entries
      = [⟨"000-1.jpg", [9], Cbz.FileOptions.default⟩] ∧
    ("000-1.jpg" : String) ≠ "-1.jpg" := by
  exact ⟨rfl, by decide⟩

/-- Amended claim C5: a custom-string insertion is written under the
name obtained by zero-padding the custom string to `COUNTER_SIZE = 5`
characters, followed by a dot and the extension; the stem is used
verbatim exactly when the custom string is at least 5 characters
long (which holds for the split-page names the callers build). -/
theorem insert_custom_str_padded_stem (w : Cbz.CbzWriter)
    (ins : Cbz.CbzWriterInsertion Cbz.CustomStr) (h : w.size < Cbz.MAX_FILE_NUMBER) :
    w.insert_custom_str ins
      = ({ entries := w.entries ++
            [⟨Cbz.padStart ins.type_.val Cbz.COUNTER_SIZE ++ "." ++ ins.extension,
              ins.bytes, ins.file_options⟩],
           size := w.size + 1 },
         Except.ok ()) ∧
    (Cbz.COUNTER_SIZE ≤ ins.type_.val.length →
      Cbz.padStart ins.type_.val Cbz.COUNTER_SIZE ++ "." ++ ins.extension
        = ins.type_.val ++ "." ++ ins.extension) := by
  constructor
  · unfold Cbz.CbzWriter.insert_custom_str
      Cbz.CbzWriter.insert_from_bytes_slice_with_options
    rw [if_neg (not_le.mpr h)]
  · intro hl
    rw [padStart_eq_self_of_le _ _ hl]

/-- Witness for C5 (amended) at a concrete split-page insertion whose
stem 00007-1 is long enough to be used verbatim. -/
theorem insert_custom_str_padded_stem_witness :
    Cbz.CbzWriter.default.insert_custom_str
        ⟨"jpg", Cbz.FileOptions.default, [5], ⟨"00007-1"⟩⟩
      = (⟨[⟨"00007-1.jpg", [5], Cbz.FileOptions.default⟩], 1⟩, Except.ok ()) ∧
    Cbz.padStart "00007-1" Cbz.COUNTER_SIZE ++ "." ++ "jpg" = "00007-1" ++ "." ++ "jpg" :=
  ⟨(insert_custom_str_padded_stem Cbz.CbzWriter.default
      ⟨"jpg", Cbz.FileOptions.default, [5], ⟨"00007-1"⟩⟩ (by decide)).1,
   (insert_custom_str_padded_stem Cbz.CbzWriter.default
      ⟨"jpg", Cbz.FileOptions.default, [5], ⟨"00007-1"⟩⟩ (by decide)).2 (by decide)⟩

/-! Claim C10. -/

/-- Claim C10: building an insertion from the dotfile-style filename
".png" fails with `CbzInsertionNoExtension` even though characters
follow the dot — the path-extension rule treats the leading-dot
component as a stem with no extension. -/
theorem build_dotfile_filename_no_extension :
    ((Cbz.CbzWriterInsertionBuilder.from_filename ".png").set_bytes [9]).build
      = Except.error Cbz.Error.CbzInsertionNoExtension ∧
    Cbz.pathExtension ".png" = none := by
  exact ⟨rfl, rfl⟩

/-! Claim C6. -/

/-- Counterexample to claim C6 as stated: `str::parse::<u16>` accepts
a leading plus sign, and on success `reformat_index` zero-pads the
candidate string itself rather than re-encoding its parsed value.
For the name "x+7-foo" at width 5 the candidate is "+7" (value 7),
and the result is "000+7-foo", not the value-encoded "00007-foo". -/
theorem reformat_index_value_pad_counterexample :
    CbzDexterReindex.parseU16 "+7" = some 7 ∧
    CbzDexterReindex.reformat_index "x+7-foo" 5 = Except.ok "000+7-foo" ∧
    ("000+7-foo" : String) ≠ "00007-foo" := by
  refine ⟨by decide, by decide, by decide⟩

/-- Amended claim C6: `reformat_index` fails with the empty-name error
on the empty name; fails with "invalid index" exactly reporting the
isolated candidate when that candidate is longer than the expected
width or does not parse as a u16; and on success returns the
candidate string (not its re-encoded numeric value) zero-padded to
the expected width, followed by a dash and the suffix after the
first dash unchanged. -/
theorem reformat_index_spec (name : String) (w : Nat) :
    (name = "" →
      CbzDexterReindex.reformat_index name w = Except.error "filename is empty") ∧
    (name ≠ "" →
      ((CbzDexterReindex.index_candidate name).length > w ∨
        CbzDexterReindex.parseU16 (CbzDexterReindex.index_candidate name) = none) →
      CbzDexterReindex.reformat_index name w
        = Except.error ("invalid index " ++ CbzDexterReindex.index_candidate name)) ∧
    (name ≠ "" →
      (CbzDexterReindex.index_candidate name).length ≤ w →
      CbzDexterReindex.parseU16 (CbzDexterReindex.index_candidate name) ≠ none →
      CbzDexterReindex.reformat_index name w
        = Except.ok (Cbz.padStart (CbzDexterReindex.index_candidate name) w ++ "-" ++
            CbzDexterReindex.rest_suffix name)) := by
  obtain ⟨data⟩ := name
  cases data with
  | nil =>
    exact ⟨fun _ => rfl, fun h => absurd rfl h, fun h => absurd rfl h⟩
  | cons first rest =>
    have hne : String.mk (first :: rest) ≠ "" := by
      intro h
      exact absurd (congrArg String.data h) (by simp)
    refine ⟨fun h => absurd h hne, fun _ hc => ?_, fun _ hlen hsome => ?_⟩
    · rw [CbzDexterReindex.reformat_index_cons, if_pos hc]
    · rw [CbzDexterReindex.reformat_index_cons,
        if_neg (not_or.mpr ⟨not_lt.mpr hlen, hsome⟩)]

/-- Witness for C6 (amended) at concrete inputs, one per branch. -/
theorem reformat_index_spec_witness :
    (CbzDexterReindex.reformat_index "" 5 = Except.error "filename is empty") ∧
    (CbzDexterReindex.reformat_index "ab-c" 3
      = Except.error ("invalid index " ++ CbzDexterReindex.index_candidate "ab-c")) ∧
    (CbzDexterReindex.reformat_index "007-x" 5
      = Except.ok (Cbz.padStart (CbzDexterReindex.index_candidate "007-x") 5 ++ "-" ++
          CbzDexterReindex.rest_suffix "007-x")) :=
  ⟨(reformat_index_spec "" 5).1 rfl,
   (reformat_index_spec "ab-c" 3).2.1 (by decide) (by decide),
   (reformat_index_spec "007-x" 5).2.2 (by decide) (by decide) (by decide)⟩

/-! Claim C7. -/

/-- Claim C7: repairing the already-canonical name "00007-foo" at
width 5 returns it unchanged, and repairing "123456-foo" at width 5
(numeric prefix longer than the width) fails with the invalid-index
error. -/
theorem reformat_index_canonical_fixed_point :
    CbzDexterReindex.reformat_index "00007-foo" 5 = Except.ok "00007-foo" ∧
    CbzDexterReindex.reformat_index "123456-foo" 5
      = Except.error "invalid index 123456" := by
  exact ⟨rfl, rfl⟩

/-! Claim C8. -/

/-- Counterexample to claim C8 as stated: the repair pipeline performs
no comparison between the output directory and the directory holding
the source archive; with the current directory /cwd, source archive
/cwd/d/a.cbz and outdir d (so that the output directory equals the
archive's own directory), the pipeline succeeds and produces its
output at the very path of the source archive instead of rejecting
before writing. -/
theorem reindex_same_dir_counterexample :
    CbzDexterReindex.parent_dir "/cwd/d/a.cbz" = CbzDexterReindex.path_join "/cwd" "d" ∧
    CbzDexterReindex.main_pipeline "/cwd" "/cwd/d/a.cbz" "d"
        [⟨"001-x", [7], Cbz.FileOptions.default⟩]
      = Except.ok ("/cwd/d/a.cbz", [⟨"001-x", [7], Cbz.FileOptions.default⟩]) := by
  exact ⟨rfl, by decide⟩

/-- Amended claim C8: the different-output-directory requirement is
only stated in the CLI documentation and is never enforced — the
pipeline's success or failure and the entries it writes are entirely
independent of the requested output directory, which only selects
the output path. -/
theorem reindex_outdir_never_checked (cur ap od od2 : String)
    (archive : List Cbz.ZipEntry) :
    Except.map Prod.snd (CbzDexterReindex.main_pipeline cur ap od archive)
      = Except.map Prod.snd (CbzDexterReindex.main_pipeline cur ap od2 archive) := by
  unfold CbzDexterReindex.main_pipeline
  cases Cbz.pathFileName ap with
  | none => rfl
  | some fn =>
    cases CbzDexterReindex.reindex_entries archive with
    | error e => rfl
    | ok fixed => rfl

/-! Claim C9. -/

/-- Counterexample to claim C9 as stated: a non-digit after the first
position does not always make the repair fail — a plus sign entering
the candidate is accepted by `str::parse::<u16>`, so "x+12-bar" at
width 3 repairs successfully to "+12-bar" even though the character
at position 1 is the non-digit plus sign. -/
theorem reformat_leading_noise_counterexample :
    ('+'.isDigit = false) ∧
    "x+12-bar".data.get? 1 = some '+' ∧
    CbzDexterReindex.reformat_index "x+12-bar" 3 = Except.ok "+12-bar" := by
  refine ⟨rfl, rfl, by decide⟩

/-- Amended claim C9: exactly the first character is treated as
discardable noise and only when it is not numeric — the candidate is
the first character iff it is numeric, followed by every further
character before the first dash (a take-while); and a non-digit in
the candidate other than the plus sign accepted by `u16` parsing
makes the repair fail with the invalid-index error (so "xy1-foo" and
"1x2-foo" fail while "x1-foo" and "x+12-bar" succeed). -/
theorem reformat_leading_noise_spec (name : String) (w : Nat) (first : Char)
    (rest : List Char) (h : name.data = first :: rest) :
    (first.isDigit = false →
      (CbzDexterReindex.index_candidate name).data
        = (CbzDexterReindex.takeUntilDash rest).1) ∧
    (first.isDigit = true →
      (CbzDexterReindex.index_candidate name).data
        = first :: (CbzDexterReindex.takeUntilDash rest).1) ∧
    ((CbzDexterReindex.takeUntilDash rest).1
      = rest.takeWhile (fun c => c != '-')) ∧
    (∀ c, c ∈ (CbzDexterReindex.index_candidate name).data →
      c.isDigit = false → c ≠ '+' →
      CbzDexterReindex.reformat_index name w
        = Except.error ("invalid index " ++ CbzDexterReindex.index_candidate name)) := by
  obtain ⟨data⟩ := name
  subst h
  refine ⟨?_, ?_, CbzDexterReindex.takeUntilDash_fst rest, ?_⟩
  · intro hd
    simp [CbzDexterReindex.index_candidate, hd, String.data_append]
  · intro hd
    simp [CbzDexterReindex.index_candidate, hd, String.data_append,
      String.singleton]
  · intro c hc hd hp
    rw [CbzDexterReindex.reformat_index_cons]
    rw [if_pos (Or.inr (CbzDexterReindex.parseU16_eq_none_of_bad_char _ c hc hd hp))]

/-- Witness for C9 (amended): the stray-letter name "xy1-foo" fails
through the non-digit rule, and the candidate of "x1-foo" is the
take-while of its tail. -/
theorem reformat_leading_noise_spec_witness :
    CbzDexterReindex.reformat_index "xy1-foo" 3
      = Except.error ("invalid index " ++ CbzDexterReindex.index_candidate "xy1-foo") ∧
    (CbzDexterReindex.takeUntilDash "1-foo".data).1
      = "1-foo".data.takeWhile (fun c => c != '-') :=
  ⟨(reformat_leading_noise_spec "xy1-foo" 3 'x' "y1-foo".data rfl).2.2.2
      'y' (by decide) (by decide) (by decide),
   (reformat_leading_noise_spec "x1-foo" 3 'x' "1-foo".data rfl).2.2.1⟩
